import Mathlib

/-!
# Formal model of the hostel/PG management application

Shallow embedding of the rule-bearing logic of the `hostel_management`
repository: the billing derivation (`MonthlyBill.save`), the bill-generation
batch (`generate_bills`), the tenant access gate (`pg_required`), the
check-in room filtering (`GuestCheckInForm`), the two guest-creation paths,
and the issue-status AJAX update (`update_issue_status`).

Monetary `Decimal` fields all carry two decimal places, so they are
modelled exactly as integers counting hundredths of a currency unit;
sums and order comparisons transfer directly.  Dates are modelled
structurally: a billing
month is a (year, month) pair, a calendar date a (year, month, day) triple.
-/

namespace Hostel

/-- A billing month key: `month_year` stores the first day of the month, so
only (year, month) carry information. Parsed from a `YYYY-MM` POST field. -/
structure YMonth where
  year : Nat
  month : Nat
deriving DecidableEq, Repr

/-- A calendar date (used for `due_date` and `check_out_date`). -/
structure SDate where
  year : Nat
  month : Nat
  day : Nat
deriving DecidableEq, Repr

/-- The bill status taxonomy from `MonthlyBill.STATUS_CHOICES`. -/
inductive BillStatus where
  | Paid
  | Unpaid
  | Partially_Paid
  | Overdue
deriving DecidableEq, Repr

/-- A `MonthlyBill` row: guest foreign key, month key, the five charge
components plus the audit-only electricity units/rate pair, payment
tracking, the derived `total_amount` and `status`, and the due date. -/
structure MonthlyBill where
  guestId : Nat
  month_year : YMonth
  rent_amount : Int
  electricity_units : Int
  electricity_rate : Int
  electricity_amount : Int
  water_charges : Int
  maintenance_charges : Int
  other_charges : Int
  total_amount : Int
  paid_amount : Int
  status : BillStatus
  due_date : SDate
deriving DecidableEq, Repr

/-- `MonthlyBill.save`: recomputes `total_amount` as the sum of the five
charge components, then derives `status` from `paid_amount` against the
fresh total (`Paid` when `paid_amount >= total`, `Partially_Paid` when
`paid_amount > 0`, otherwise `Unpaid`). -/
def MonthlyBill.save (b : MonthlyBill) : MonthlyBill :=
  let total := b.rent_amount + b.electricity_amount + b.water_charges +
    b.maintenance_charges + b.other_charges
  let st :=
    if total ≤ b.paid_amount then BillStatus.Paid
    else if 0 < b.paid_amount then BillStatus.Partially_Paid
    else BillStatus.Unpaid
  { b with total_amount := total, status := st }

/-- `MonthlyBill.get_balance_amount`. -/
def MonthlyBill.get_balance_amount (b : MonthlyBill) : Int :=
  b.total_amount - b.paid_amount

/-- A bill whose five charge components and paid amount are all zero
(such a bill arises from `generate_bills` for a guest with rent 0: guest
self-registration creates profiles with `rent_amount=0`). -/
def zeroBill : MonthlyBill :=
  { guestId := 1, month_year := ⟨2024, 3⟩, rent_amount := 0,
    electricity_units := 0, electricity_rate := 0, electricity_amount := 0,
    water_charges := 0, maintenance_charges := 0, other_charges := 0,
    total_amount := 0, paid_amount := 0, status := BillStatus.Unpaid,
    due_date := ⟨2024, 4, 15⟩ }

end Hostel

namespace Hostel

/-- C1 (counterexample): a bill with every charge component zero and
`paid_amount = 0` is saved with status `Paid`, not `Unpaid`: the
`paid_amount >= total_amount` branch fires first because `0 >= 0`.  This
refutes the claim's case `paid_amount == 0 ⇒ status == 'Unpaid'`. -/
theorem save_zero_bill_is_paid :
    zeroBill.paid_amount = 0 ∧
    (MonthlyBill.save zeroBill).status = BillStatus.Paid ∧
    (MonthlyBill.save zeroBill).status ≠ BillStatus.Unpaid := by
  refine ⟨rfl, ?_, ?_⟩ <;> decide

/-- C1 (amended): after save, status follows the three-way rule with the
`Unpaid` case restricted to bills of positive total: `Paid` iff
`paid_amount ≥ total`, `Partially_Paid` when `0 < paid_amount < total`,
and `Unpaid` when `paid_amount = 0` and the recomputed total is positive
(a bill with zero paid amount and non-positive total is saved `Paid`). -/
theorem save_status_three_way (b : MonthlyBill) :
    ((MonthlyBill.save b).status = BillStatus.Paid ↔
      (MonthlyBill.save b).total_amount ≤ b.paid_amount) ∧
    (0 < b.paid_amount → b.paid_amount < (MonthlyBill.save b).total_amount →
      (MonthlyBill.save b).status = BillStatus.Partially_Paid) ∧
    (b.paid_amount = 0 → 0 < (MonthlyBill.save b).total_amount →
      (MonthlyBill.save b).status = BillStatus.Unpaid) := by
  unfold MonthlyBill.save
  dsimp only
  refine ⟨?_, ?_, ?_⟩
  · constructor
    · intro h
      split at h
      · assumption
      · split at h <;> simp_all
    · intro h
      simp only [if_pos h]
  · intro hpos hlt
    rw [if_neg (by omega), if_pos hpos]
  · intro hz hpos
    rw [if_neg (by omega), if_neg (by omega)]

/-- C1 (witness for the amended theorem): concrete instantiations — a bill
with rent 100 and paid 40 is saved `Partially_Paid`; one with rent 100 and
paid 0 is saved `Unpaid`; one with rent 100 and paid 100 is saved `Paid`. -/
theorem save_status_three_way_witness :
    (MonthlyBill.save { zeroBill with rent_amount := 100, paid_amount := 40 }).status
      = BillStatus.Partially_Paid ∧
    (MonthlyBill.save { zeroBill with rent_amount := 100 }).status
      = BillStatus.Unpaid ∧
    (MonthlyBill.save { zeroBill with rent_amount := 100, paid_amount := 100 }).status
      = BillStatus.Paid := by
  refine ⟨?_, ?_, ?_⟩
  · exact (save_status_three_way _).2.1 (by decide) (by decide)
  · exact (save_status_three_way _).2.2 (by decide) (by decide)
  · exact (save_status_three_way _).1.mpr (by decide)

/-- C5: after every save, `total_amount` is exactly the sum of the five
charge components `rent + electricity_amount + water + maintenance + other`,
and the stored `electricity_amount` field is the term used: replacing
`electricity_units` and `electricity_rate` by anything leaves the saved
total (and status) unchanged. -/
theorem save_total_is_component_sum (b : MonthlyBill) (u r : Int) :
    (MonthlyBill.save b).total_amount =
      b.rent_amount + b.electricity_amount + b.water_charges +
        b.maintenance_charges + b.other_charges ∧
    (MonthlyBill.save { b with electricity_units := u, electricity_rate := r }).total_amount
      = (MonthlyBill.save b).total_amount ∧
    (MonthlyBill.save { b with electricity_units := u, electricity_rate := r }).status
      = (MonthlyBill.save b).status := by
  unfold MonthlyBill.save
  exact ⟨rfl, rfl, rfl⟩

/-- C8: the billing derivation never assigns `Overdue`: whatever the charge
components and paid amount, the saved status is `Paid`, `Partially_Paid`
or `Unpaid`. -/
theorem save_never_overdue (b : MonthlyBill) :
    (MonthlyBill.save b).status ≠ BillStatus.Overdue ∧
    ((MonthlyBill.save b).status = BillStatus.Paid ∨
     (MonthlyBill.save b).status = BillStatus.Partially_Paid ∨
     (MonthlyBill.save b).status = BillStatus.Unpaid) := by
  unfold MonthlyBill.save
  dsimp only
  split
  · exact ⟨by simp, Or.inl rfl⟩
  · split
    · exact ⟨by simp, Or.inr (Or.inl rfl)⟩
    · exact ⟨by simp, Or.inr (Or.inr rfl)⟩

end Hostel

namespace Hostel

/-- The role tag from `CustomUser.ROLE_CHOICES`. -/
inductive Role where
  | super_admin
  | pg_admin
  | guest
deriving DecidableEq, Repr

/-- A `PG` (tenant/property) row: the slug identifying it in URLs and the
super-admin-controlled activation flag. -/
structure PGRec where
  slug : String
  is_active : Bool
deriving DecidableEq, Repr

/-- A `CustomUser` row, restricted to the fields the access gate reads:
the Django `is_superuser` flag, the role tag, the approval flag, the
`pg` foreign key, and the reverse one-to-one `owned_pg` accessor
(`none` models a user for which `hasattr(user, 'owned_pg')` is false,
i.e. no `PG` row names this user as owner). -/
structure User where
  is_superuser : Bool
  role : Role
  is_approved : Bool
  pg : Option PGRec
  owned_pg : Option PGRec
deriving DecidableEq, Repr

/-- `CustomUser.is_pg_admin`. -/
def User.is_pg_admin (u : User) : Bool := u.role = Role.pg_admin

/-- `CustomUser.is_guest`. -/
def User.is_guest (u : User) : Bool := u.role = Role.guest

/-- `CustomUser.is_super_admin` (the role check — distinct from the Django
`is_superuser` flag that the gate actually consults). -/
def User.is_super_admin (u : User) : Bool := u.role = Role.super_admin

/-- Outcome of the `pg_required` decorator for one request: the wrapped
view runs (`allow`), one of the deny paths (message + redirect, or the
final `HttpResponseForbidden`), or an uncaught exception
(`RelatedObjectDoesNotExist` from touching `user.owned_pg` when no owned
`PG` exists). -/
inductive GateResult where
  | allow
  | denyAdminNotApproved
  | denyPGNotActive
  | denyGuestNotApproved
  | forbidden
  | attrError
deriving DecidableEq, Repr

/-- The `pg_required` access gate, evaluated for requester `u` against the
`PG` resolved from the URL slug.  Mirrors the source control flow: the
superuser bypass; the PG-admin chain (allow on owned-slug match ∧ approved
∧ active, else the not-approved message, else `owned_pg.is_active` — which
raises when `owned_pg` is absent); the guest chain (allow on pg match ∧
approved, else the pending-approval message); and the closing
`HttpResponseForbidden`. -/
def pg_required (u : User) (pg : PGRec) : GateResult :=
  if u.is_superuser then GateResult.allow
  else if u.is_pg_admin then
    match u.owned_pg with
    | some owned =>
      if owned.slug = pg.slug ∧ u.is_approved ∧ owned.is_active then
        GateResult.allow
      else if ¬ u.is_approved then GateResult.denyAdminNotApproved
      else if ¬ owned.is_active then GateResult.denyPGNotActive
      else GateResult.forbidden
    | none =>
      if ¬ u.is_approved then GateResult.denyAdminNotApproved
      else GateResult.attrError
  else if u.is_guest then
    match u.pg with
    | some upg =>
      if upg.slug = pg.slug ∧ u.is_approved then GateResult.allow
      else if ¬ u.is_approved then GateResult.denyGuestNotApproved
      else GateResult.forbidden
    | none =>
      if ¬ u.is_approved then GateResult.denyGuestNotApproved
      else GateResult.forbidden
  else GateResult.forbidden

/-- A gate outcome is a denial when a deny path or the closing forbidden
response was taken (not the wrapped view, and not an exception). -/
def GateResult.isDeny : GateResult → Bool
  | GateResult.denyAdminNotApproved => true
  | GateResult.denyPGNotActive => true
  | GateResult.denyGuestNotApproved => true
  | GateResult.forbidden => true
  | _ => false

/-- The guest user created by the admin-driven `guest_check_in` view:
`role='guest'`, `pg=pg`, `is_approved=True` (a plain
`create_user`, so no superuser flag and no owned PG). -/
def guest_check_in_user (pg : PGRec) : User :=
  { is_superuser := false, role := Role.guest, is_approved := true,
    pg := some pg, owned_pg := none }

/-- The guest user created by self-service `guest_register`:
`role='guest'`, `pg=pg`, `is_approved=False` pending admin approval. -/
def guest_register_user (pg : PGRec) : User :=
  { is_superuser := false, role := Role.guest, is_approved := false,
    pg := some pg, owned_pg := none }

end Hostel

namespace Hostel

/-- C3: for a non-superuser requester (the spec's role tags are exclusive:
"property_admin" means no platform-admin privilege), (a) a PG-admin is
allowed iff they own a PG whose slug equals the target's, they are
approved, and that PG is active; (b) with both the approval and activation
flags false the reported deny reason is the not-approved message (it is
checked first); (c) a guest whose `pg` reference does not match the target
slug is denied whatever their approval flag. -/
theorem gate_admin_iff_and_guest_mismatch_denied (u : User) (pg : PGRec)
    (hsu : u.is_superuser = false) :
    (u.role = Role.pg_admin →
      ((pg_required u pg = GateResult.allow ↔
          ∃ owned, u.owned_pg = some owned ∧ owned.slug = pg.slug ∧
            u.is_approved = true ∧ owned.is_active = true)
       ∧ (∀ owned, u.owned_pg = some owned → u.is_approved = false →
            owned.is_active = false →
            pg_required u pg = GateResult.denyAdminNotApproved)))
    ∧ (u.role = Role.guest →
        (∀ t, u.pg = some t → t.slug ≠ pg.slug) →
        ((pg_required u pg).isDeny = true ∧
          pg_required u pg ≠ GateResult.allow)) := by
  obtain ⟨su, role, ap, upg, opg⟩ := u
  simp only at hsu
  subst hsu
  constructor
  · intro hrole
    simp only at hrole
    subst hrole
    constructor
    · cases opg with
      | none =>
        cases ap <;>
          simp [pg_required, User.is_pg_admin]
      | some owned =>
        obtain ⟨oslug, oact⟩ := owned
        by_cases hs : oslug = pg.slug <;> cases ap <;> cases oact <;>
          simp [pg_required, User.is_pg_admin, hs]
    · rintro owned howned hap hact
      subst howned
      simp only at hap hact
      subst hap
      obtain ⟨oslug, oact⟩ := owned
      simp only at hact
      subst hact
      simp [pg_required, User.is_pg_admin]
  · intro hrole hmis
    simp only at hrole
    subst hrole
    cases upg with
    | none =>
      cases ap <;>
        simp [pg_required, User.is_pg_admin, User.is_guest, GateResult.isDeny]
    | some t =>
      have hne : t.slug ≠ pg.slug := hmis t rfl
      cases ap <;>
        simp [pg_required, User.is_pg_admin, User.is_guest, GateResult.isDeny, hne]

/-- C3 (witness): concrete instantiations of the gate rules — an approved
admin owning the active target PG is allowed; an unapproved admin owning
the same PG while it is inactive gets the not-approved denial; an approved
guest attached to a different PG is denied. -/
theorem gate_admin_iff_and_guest_mismatch_denied_witness :
    (pg_required
        { is_superuser := false, role := Role.pg_admin, is_approved := true,
          pg := none, owned_pg := some ⟨"sunrise", true⟩ }
        ⟨"sunrise", true⟩ = GateResult.allow) ∧
    (pg_required
        { is_superuser := false, role := Role.pg_admin, is_approved := false,
          pg := none, owned_pg := some ⟨"sunrise", false⟩ }
        ⟨"sunrise", false⟩ = GateResult.denyAdminNotApproved) ∧
    ((pg_required
        { is_superuser := false, role := Role.guest, is_approved := true,
          pg := some ⟨"other", true⟩, owned_pg := none }
        ⟨"sunrise", true⟩).isDeny = true) := by
  refine ⟨?_, ?_, ?_⟩
  · exact ((gate_admin_iff_and_guest_mismatch_denied _ _ rfl).1 rfl).1.mpr
      ⟨⟨"sunrise", true⟩, rfl, rfl, rfl, rfl⟩
  · exact ((gate_admin_iff_and_guest_mismatch_denied _ _ rfl).1 rfl).2
      ⟨"sunrise", false⟩ rfl rfl rfl
  · exact ((gate_admin_iff_and_guest_mismatch_denied _ _ rfl).2 rfl
      (by intro t ht; cases ht; decide)).1

/-- C4 (code evaluated at the failing input): a non-superuser PG-admin with
no owned PG is denied only when unapproved; when approved, the gate
reaches `request.user.owned_pg.is_active` and raises
`RelatedObjectDoesNotExist` instead of denying — contradicting the claim
that this configuration always yields DENY and never an error. -/
theorem gate_admin_without_pg_raises (pg : PGRec) :
    pg_required
        { is_superuser := false, role := Role.pg_admin, is_approved := true,
          pg := none, owned_pg := none } pg = GateResult.attrError ∧
    pg_required
        { is_superuser := false, role := Role.pg_admin, is_approved := false,
          pg := none, owned_pg := none } pg = GateResult.denyAdminNotApproved ∧
    (GateResult.attrError.isDeny = false ∧
      GateResult.attrError ≠ GateResult.allow) := by
  refine ⟨rfl, rfl, rfl, by simp⟩

/-- C9: the two guest-creation paths differ exactly on the approval gate —
`guest_check_in` (admin-driven) creates the guest user already approved, so
it immediately passes `pg_required` for its own PG, while `guest_register`
(self-service) creates it unapproved, so the same gate answers with the
pending-approval denial. -/
theorem check_in_approved_register_not (pg : PGRec) :
    (guest_check_in_user pg).is_approved = true ∧
    (guest_check_in_user pg).role = Role.guest ∧
    (guest_register_user pg).is_approved = false ∧
    (guest_register_user pg).role = Role.guest ∧
    pg_required (guest_check_in_user pg) pg = GateResult.allow ∧
    pg_required (guest_register_user pg) pg = GateResult.denyGuestNotApproved := by
  refine ⟨rfl, rfl, rfl, rfl, ?_, ?_⟩ <;>
    simp [pg_required, guest_check_in_user, guest_register_user,
      User.is_pg_admin, User.is_guest]

end Hostel

namespace Hostel

/-- A `GuestProfile` row, restricted to the fields the occupancy and
billing logic read: the row id, the PG of the owning user, the optional
current room, the current rent, and the nullable check-out date. -/
structure GuestProfile where
  id : Nat
  pgSlug : String
  room : Option Nat
  rent_amount : Int
  check_out_date : Option SDate
deriving DecidableEq, Repr

/-- `GuestProfile.is_active`: the guest has not checked out. -/
def GuestProfile.is_active (g : GuestProfile) : Bool :=
  g.check_out_date.isNone

/-- A `Room` row: owning PG, capacity, rent, and the manually managed
availability flag. -/
structure Room where
  id : Nat
  pgSlug : String
  room_number : String
  capacity : Nat
  rent_amount : Int
  is_available : Bool
deriving DecidableEq, Repr

/-- `Room.get_current_occupants`: the guest profiles assigned to this room
whose check-out date is null, among all profiles `guests`. -/
def Room.get_current_occupants (r : Room) (guests : List GuestProfile) :
    List GuestProfile :=
  guests.filter (fun g => g.room == some r.id && g.check_out_date.isNone)

/-- `Room.is_full`: the active-occupant count has reached capacity. -/
def Room.is_full (r : Room) (guests : List GuestProfile) : Bool :=
  r.capacity ≤ (r.get_current_occupants guests).length

/-- The room choices offered by `GuestCheckInForm.__init__`: rooms of the
given PG with `is_available=True`.  This queryset is the only validation
applied to the posted room; capacity is not consulted. -/
def checkInRoomChoices (pgSlug : String) (rooms : List Room) : List Room :=
  rooms.filter (fun r => r.pgSlug == pgSlug && r.is_available)

/-- A two-bed room marked available. -/
def fullRoom : Room :=
  { id := 1, pgSlug := "sunrise", room_number := "101", capacity := 2,
    rent_amount := 500000, is_available := true }

/-- Two guests currently occupying `fullRoom` (check-out date null). -/
def fullRoomGuests : List GuestProfile :=
  [ { id := 1, pgSlug := "sunrise", room := some 1, rent_amount := 500000,
      check_out_date := none },
    { id := 2, pgSlug := "sunrise", room := some 1, rent_amount := 500000,
      check_out_date := none } ]

/-- The occupancy state after a third guest is checked into `fullRoom`:
`guest_check_in` creates the profile with the posted room directly. -/
def fullRoomGuestsAfterThird : List GuestProfile :=
  fullRoomGuests ++
    [ { id := 3, pgSlug := "sunrise", room := some 1, rent_amount := 500000,
        check_out_date := none } ]

end Hostel

namespace Hostel

/-- C2 (code evaluated at the failing input): a room with capacity 2 that
already has 2 active occupants — `Room.is_full` answers true — is still
offered by the check-in form (its queryset filters only on PG and the
manual `is_available` flag), so a third check-in into it is accepted and
leaves 3 active occupants in a capacity-2 room.  This contradicts the
claim that such a check-in is rejected: nothing in the check-in path
consults `is_full` or the capacity. -/
theorem full_room_still_accepted :
    fullRoom.is_full fullRoomGuests = true ∧
    fullRoom ∈ checkInRoomChoices "sunrise" [fullRoom] ∧
    (fullRoom.get_current_occupants fullRoomGuestsAfterThird).length = 3 ∧
    fullRoom.capacity = 2 := by
  refine ⟨?_, ?_, ?_, rfl⟩ <;> decide

/-- An `Issue` row, restricted to the fields `update_issue_status`
touches. -/
structure Issue where
  status : String
  resolution_notes : String
  resolved_at : Option Nat
deriving DecidableEq, Repr

/-- The JSON body answered by `update_issue_status`. -/
structure IssueResponse where
  success : Bool
  error : Option String
deriving DecidableEq, Repr

/-- The keys of `Issue.STATUS_CHOICES`. -/
def issueStatusKeys : List String := ["open", "in_progress", "resolved", "closed"]

/-- `update_issue_status` on an issue of the requester's PG: when the
posted status is one of the four enum keys, set it, overwrite the
resolution notes when non-empty, stamp `resolved_at` when moving to
`resolved`, and persist; otherwise answer `{'success': False, 'error':
'Invalid status'}` without touching or saving the issue.  The returned
`Bool` records whether `issue.save()` ran. -/
def update_issue_status (issue : Issue) (new_status : String)
    (resolution_notes : String) (now : Nat) : Issue × Bool × IssueResponse :=
  if new_status ∈ issueStatusKeys then
    let i1 := { issue with status := new_status }
    let i2 := if resolution_notes ≠ "" then
        { i1 with resolution_notes := resolution_notes }
      else i1
    let i3 := if new_status = "resolved" then
        { i2 with resolved_at := some now }
      else i2
    (i3, true, { success := true, error := none })
  else
    (issue, false, { success := false, error := some "Invalid status" })

end Hostel

namespace Hostel

/-- C10: posting any status outside the four-key enum makes
`update_issue_status` answer `{'success': False, 'error': 'Invalid
status'}` and leave the issue untouched and unsaved (status,
resolution_notes and resolved_at keep their prior values); the issue is
persisted exactly when the posted status is in the enum. -/
theorem update_issue_status_rejects_invalid (issue : Issue)
    (new_status resolution_notes : String) (now : Nat)
    (hbad : new_status ∉ issueStatusKeys) :
    update_issue_status issue new_status resolution_notes now =
      (issue, false, { success := false, error := some "Invalid status" }) ∧
    ∀ s n t, (update_issue_status issue s n t).2.1 = true ↔ s ∈ issueStatusKeys := by
  constructor
  · simp [update_issue_status, hbad]
  · intro s n t
    by_cases h : s ∈ issueStatusKeys <;> simp [update_issue_status, h]

/-- C10 (witness): posting the out-of-enum status `Resolved` (wrong case)
for an open issue is rejected with the invalid-status response, and
persistence happens exactly for enum statuses. -/
theorem update_issue_status_rejects_invalid_witness :
    update_issue_status ⟨"open", "", none⟩ "Resolved" "done" 7 =
      (⟨"open", "", none⟩, false,
        { success := false, error := some "Invalid status" }) := by
  exact (update_issue_status_rejects_invalid ⟨"open", "", none⟩ "Resolved"
    "done" 7 (by decide)).1

end Hostel

namespace Hostel

/-- Due-date computation of `generate_bills`: the 15th of the month after
`bill_date`, rolling the year over when the billing month is December. -/
def computeDueDate (d : YMonth) : SDate :=
  if d.month = 12 then ⟨d.year + 1, 1, 15⟩ else ⟨d.year, d.month + 1, 15⟩

/-- The bill `generate_bills` creates for guest `g` and month `d`:
`MonthlyBill.objects.create(guest, month_year, rent_amount=guest.rent_amount,
due_date=...)` with every other charge field at its model default, run
through the custom `save` (Django `create` persists via `save`). -/
def newBillFor (g : GuestProfile) (d : YMonth) : MonthlyBill :=
  MonthlyBill.save
    { guestId := g.id, month_year := d, rent_amount := g.rent_amount,
      electricity_units := 0, electricity_rate := 0, electricity_amount := 0,
      water_charges := 0, maintenance_charges := 0, other_charges := 0,
      total_amount := 0, paid_amount := 0, status := BillStatus.Unpaid,
      due_date := computeDueDate d }

/-- The queryset `GuestProfile.objects.filter(user__pg=pg,
check_out_date__isnull=True)`. -/
def activeGuestsOf (pgSlug : String) (guests : List GuestProfile) :
    List GuestProfile :=
  guests.filter (fun g => g.pgSlug == pgSlug && g.check_out_date.isNone)

/-- Whether bill `b` is the (guest, month) row being looked up. -/
def billMatches (b : MonthlyBill) (gid : Nat) (d : YMonth) : Bool :=
  decide (b.guestId = gid ∧ b.month_year = d)

/-- `MonthlyBill.objects.filter(guest=guest, month_year=bill_date).exists()`. -/
def hasBillFor (bills : List MonthlyBill) (gid : Nat) (d : YMonth) : Bool :=
  bills.any (fun b => billMatches b gid d)

/-- Number of stored bills for a (guest, month) pair. -/
def billsFor (bills : List MonthlyBill) (gid : Nat) (d : YMonth) : Nat :=
  (bills.filter (fun b => billMatches b gid d)).length

/-- The `for guest in active_guests` loop of `generate_bills`: walk the
active guests, create the month's bill for each guest that has none yet
(the existence check sees rows created earlier in the same loop), and
count the created bills. -/
def genLoop (d : YMonth) :
    List GuestProfile → List MonthlyBill → List MonthlyBill × Nat
  | [], bills => (bills, 0)
  | g :: rest, bills =>
    if hasBillFor bills g.id d then genLoop d rest bills
    else ((genLoop d rest (bills ++ [newBillFor g d])).1,
          (genLoop d rest (bills ++ [newBillFor g d])).2 + 1)

/-- The `generate_bills` view's batch for one POSTed month: run the loop
over the PG's active guests against the stored bills; the returned count
is the one reported in the success message. -/
def generate_bills (pgSlug : String) (d : YMonth) (guests : List GuestProfile)
    (bills : List MonthlyBill) : List MonthlyBill × Nat :=
  genLoop d (activeGuestsOf pgSlug guests) bills

theorem newBillFor_guestId (g : GuestProfile) (d : YMonth) :
    (newBillFor g d).guestId = g.id := rfl

theorem newBillFor_month_year (g : GuestProfile) (d : YMonth) :
    (newBillFor g d).month_year = d := rfl

theorem newBillFor_due_date (g : GuestProfile) (d : YMonth) :
    (newBillFor g d).due_date = computeDueDate d := rfl

theorem billMatches_newBillFor_self (g : GuestProfile) (d : YMonth) :
    billMatches (newBillFor g d) g.id d = true := by
  simp [billMatches, newBillFor_guestId, newBillFor_month_year]

theorem billMatches_newBillFor_ne (g : GuestProfile) (d d' : YMonth)
    (gid : Nat) (h : g.id ≠ gid) :
    billMatches (newBillFor g d) gid d' = false := by
  simp [billMatches, newBillFor_guestId]
  intro he
  exact absurd he h

theorem hasBillFor_append (xs ys : List MonthlyBill) (gid : Nat) (d : YMonth) :
    hasBillFor (xs ++ ys) gid d = (hasBillFor xs gid d || hasBillFor ys gid d) := by
  simp [hasBillFor, List.any_append]

theorem billsFor_append (xs ys : List MonthlyBill) (gid : Nat) (d : YMonth) :
    billsFor (xs ++ ys) gid d = billsFor xs gid d + billsFor ys gid d := by
  simp [billsFor, List.filter_append]

theorem billsFor_eq_zero_iff (bills : List MonthlyBill) (gid : Nat) (d : YMonth) :
    billsFor bills gid d = 0 ↔ hasBillFor bills gid d = false := by
  simp [billsFor, hasBillFor, List.length_eq_zero, List.filter_eq_nil_iff,
    List.any_eq_true]

end Hostel

namespace Hostel

theorem genLoop_hasBillFor_mono (d : YMonth) (gs : List GuestProfile)
    (bills : List MonthlyBill) (gid : Nat)
    (h : hasBillFor bills gid d = true) :
    hasBillFor (genLoop d gs bills).1 gid d = true := by
  induction gs generalizing bills with
  | nil => simpa [genLoop] using h
  | cons g rest ih =>
    simp only [genLoop]
    split
    · exact ih bills h
    · exact ih _ (by rw [hasBillFor_append]; simp [h])

theorem genLoop_covers (d : YMonth) (gs : List GuestProfile)
    (bills : List MonthlyBill) (g : GuestProfile) (hg : g ∈ gs) :
    hasBillFor (genLoop d gs bills).1 g.id d = true := by
  induction gs generalizing bills with
  | nil => cases hg
  | cons g0 rest ih =>
    simp only [genLoop]
    split
    · rename_i hhas
      cases hg with
      | head => exact genLoop_hasBillFor_mono d rest bills g.id hhas
      | tail _ h => exact ih bills h
    · cases hg with
      | head =>
        apply genLoop_hasBillFor_mono
        rw [hasBillFor_append]
        have : hasBillFor [newBillFor g d] g.id d = true := by
          simp [hasBillFor, billMatches_newBillFor_self]
        simp [this]
      | tail _ h => exact ih _ h

theorem genLoop_noop (d : YMonth) (gs : List GuestProfile)
    (bills : List MonthlyBill)
    (h : ∀ g ∈ gs, hasBillFor bills g.id d = true) :
    genLoop d gs bills = (bills, 0) := by
  induction gs with
  | nil => rfl
  | cons g rest ih =>
    simp only [genLoop]
    rw [if_pos (h g (List.mem_cons_self _ _))]
    exact ih (fun g' hg' => h g' (List.mem_cons_of_mem _ hg'))

theorem genLoop_mem_inv (d : YMonth) (gs : List GuestProfile)
    (bills : List MonthlyBill) (b : MonthlyBill)
    (hb : b ∈ (genLoop d gs bills).1) :
    b ∈ bills ∨ ∃ g, g ∈ gs ∧ b = newBillFor g d := by
  induction gs generalizing bills with
  | nil => exact Or.inl (by simpa [genLoop] using hb)
  | cons g rest ih =>
    simp only [genLoop] at hb
    split at hb
    · rcases ih bills hb with h | ⟨g', hg', he⟩
      · exact Or.inl h
      · exact Or.inr ⟨g', List.mem_cons_of_mem _ hg', he⟩
    · rcases ih _ hb with h | ⟨g', hg', he⟩
      · rcases List.mem_append.mp h with h' | h'
        · exact Or.inl h'
        · exact Or.inr ⟨g, List.mem_cons_self _ _, List.mem_singleton.mp h'⟩
      · exact Or.inr ⟨g', List.mem_cons_of_mem _ hg', he⟩

theorem genLoop_billsFor_skip (d : YMonth) (gs : List GuestProfile)
    (bills : List MonthlyBill) (gid : Nat)
    (h : gid ∉ gs.map GuestProfile.id) :
    billsFor (genLoop d gs bills).1 gid d = billsFor bills gid d := by
  induction gs generalizing bills with
  | nil => simp [genLoop]
  | cons g rest ih =>
    simp only [List.map_cons, List.mem_cons, not_or] at h
    obtain ⟨hne, hrest⟩ := h
    simp only [genLoop]
    split
    · exact ih bills hrest
    · rw [ih _ hrest, billsFor_append]
      have : billsFor [newBillFor g d] gid d = 0 := by
        simp [billsFor, billMatches_newBillFor_ne g d d gid (fun e => hne e.symm)]
      omega

theorem genLoop_billsFor (d : YMonth) (gs : List GuestProfile)
    (bills : List MonthlyBill) (g : GuestProfile)
    (hnd : (gs.map GuestProfile.id).Nodup) (hg : g ∈ gs) :
    billsFor (genLoop d gs bills).1 g.id d =
      if hasBillFor bills g.id d then billsFor bills g.id d
      else billsFor bills g.id d + 1 := by
  induction gs generalizing bills with
  | nil => cases hg
  | cons g0 rest ih =>
    simp only [List.map_cons, List.nodup_cons] at hnd
    obtain ⟨h0, hnd'⟩ := hnd
    simp only [genLoop]
    cases hg with
    | head =>
      split
      · exact genLoop_billsFor_skip d rest bills g.id h0
      · rw [genLoop_billsFor_skip d rest _ g.id h0, billsFor_append]
        have : billsFor [newBillFor g d] g.id d = 1 := by
          simp [billsFor, billMatches_newBillFor_self]
        omega
    | tail _ hgr =>
      have hne : g.id ≠ g0.id := by
        intro e
        exact h0 (e ▸ List.mem_map_of_mem GuestProfile.id hgr)
      split
      · exact ih bills hnd' hgr
      · rw [ih _ hnd' hgr]
        have hsingle : billsFor [newBillFor g0 d] g.id d = 0 := by
          simp [billsFor, billMatches_newBillFor_ne g0 d d g.id
            (fun e => hne e.symm)]
        have hhasapp : hasBillFor (bills ++ [newBillFor g0 d]) g.id d =
            hasBillFor bills g.id d := by
          rw [hasBillFor_append]
          have : hasBillFor [newBillFor g0 d] g.id d = false := by
            simp [hasBillFor, billMatches_newBillFor_ne g0 d d g.id
              (fun e => hne e.symm)]
          simp [this]
        rw [hhasapp, billsFor_append, hsingle]
        split <;> omega

theorem genLoop_count (d : YMonth) (gs : List GuestProfile)
    (bills : List MonthlyBill)
    (hnd : (gs.map GuestProfile.id).Nodup) :
    (genLoop d gs bills).2 =
      (gs.filter (fun g => !hasBillFor bills g.id d)).length := by
  induction gs generalizing bills with
  | nil => rfl
  | cons g rest ih =>
    simp only [List.map_cons, List.nodup_cons] at hnd
    obtain ⟨h0, hnd'⟩ := hnd
    simp only [genLoop]
    split
    · rename_i hhas
      rw [ih bills hnd', List.filter_cons]
      simp [hhas]
    · rename_i hhas
      rw [ih _ hnd', List.filter_cons]
      have heq : rest.filter
            (fun g' => !hasBillFor (bills ++ [newBillFor g d]) g'.id d) =
          rest.filter (fun g' => !hasBillFor bills g'.id d) := by
        apply List.filter_congr
        intro g' hg'
        have hne : g.id ≠ g'.id := by
          intro e
          exact h0 (e ▸ List.mem_map_of_mem GuestProfile.id hg')
        rw [hasBillFor_append]
        have : hasBillFor [newBillFor g d] g'.id d = false := by
          simp [hasBillFor, billMatches_newBillFor_ne g d d g'.id hne]
        simp [this]
      rw [heq]
      have hf : hasBillFor bills g.id d = false := by
        simpa using hhas
      simp [hf]

end Hostel

namespace Hostel

/-- C6: per (guest, month) idempotent bill generation.  Over the active
guests (null check-out date, right PG) of distinct profile ids: a guest
with no bill for the month ends with exactly one; a guest that already has
one is skipped (their bill count is unchanged); a second run on the
resulting store creates nothing and changes nothing; every created bill
carries the guest's current rent and zero for all other charge components;
and the reported count is the number of active guests that lacked a bill. -/
theorem generate_bills_idempotent (pgSlug : String) (d : YMonth)
    (guests : List GuestProfile) (bills : List MonthlyBill)
    (hnd : (guests.map GuestProfile.id).Nodup) :
    (∀ g ∈ activeGuestsOf pgSlug guests,
        (hasBillFor bills g.id d = false →
          billsFor (generate_bills pgSlug d guests bills).1 g.id d = 1)
      ∧ (hasBillFor bills g.id d = true →
          billsFor (generate_bills pgSlug d guests bills).1 g.id d =
            billsFor bills g.id d))
    ∧ generate_bills pgSlug d guests (generate_bills pgSlug d guests bills).1
        = ((generate_bills pgSlug d guests bills).1, 0)
    ∧ (∀ b ∈ (generate_bills pgSlug d guests bills).1, b ∉ bills →
        ∃ g, g ∈ activeGuestsOf pgSlug guests ∧
          b.guestId = g.id ∧ b.month_year = d ∧
          b.rent_amount = g.rent_amount ∧ b.electricity_amount = 0 ∧
          b.water_charges = 0 ∧ b.maintenance_charges = 0 ∧
          b.other_charges = 0 ∧ b.paid_amount = 0)
    ∧ (generate_bills pgSlug d guests bills).2 =
        ((activeGuestsOf pgSlug guests).filter
          (fun g => !hasBillFor bills g.id d)).length := by
  have hnda : ((activeGuestsOf pgSlug guests).map GuestProfile.id).Nodup :=
    List.Nodup.sublist
      (List.Sublist.map GuestProfile.id (List.filter_sublist guests)) hnd
  refine ⟨?_, ?_, ?_, ?_⟩
  · intro g hg
    constructor
    · intro hfalse
      have h0 : billsFor bills g.id d = 0 :=
        (billsFor_eq_zero_iff bills g.id d).mpr hfalse
      rw [generate_bills, genLoop_billsFor d _ bills g hnda hg, hfalse]
      simp [h0]
    · intro htrue
      rw [generate_bills, genLoop_billsFor d _ bills g hnda hg, htrue]
      simp
  · rw [generate_bills, generate_bills]
    exact genLoop_noop d _ _ (fun g hg => genLoop_covers d _ bills g hg)
  · intro b hb hnot
    rcases genLoop_mem_inv d _ bills b hb with h | ⟨g, hg, he⟩
    · exact absurd h hnot
    · subst he
      exact ⟨g, hg, rfl, rfl, rfl, rfl, rfl, rfl, rfl, rfl⟩
  · rw [generate_bills]
    exact genLoop_count d _ bills hnda

/-- A concrete active guest used to instantiate the batch theorems. -/
def wGuest : GuestProfile :=
  { id := 1, pgSlug := "sunrise", room := some 1, rent_amount := 500000,
    check_out_date := none }

/-- C6 (witness): generating March-2024 bills for one active guest with an
empty store yields exactly one bill for the pair, reports count 1, and a
second run returns the store unchanged with count 0. -/
theorem generate_bills_idempotent_witness :
    billsFor (generate_bills "sunrise" ⟨2024, 3⟩ [wGuest] []).1 1 ⟨2024, 3⟩ = 1 ∧
    generate_bills "sunrise" ⟨2024, 3⟩ [wGuest]
        (generate_bills "sunrise" ⟨2024, 3⟩ [wGuest] []).1
      = ((generate_bills "sunrise" ⟨2024, 3⟩ [wGuest] []).1, 0) ∧
    (generate_bills "sunrise" ⟨2024, 3⟩ [wGuest] []).2 = 1 := by
  have h := generate_bills_idempotent "sunrise" ⟨2024, 3⟩ [wGuest] [] (by decide)
  have hm : wGuest ∈ activeGuestsOf "sunrise" [wGuest] := by decide
  refine ⟨?_, h.2.1, ?_⟩
  · exact (h.1 wGuest hm).1 (by decide)
  · rw [h.2.2.2]
    decide

/-- C7: every bill created by the batch for month `d` is due on the 15th of
the following calendar month, with the year incremented exactly when `d`
is a December; in particular month 2024-12 gives due date 2025-01-15 and
month 2024-03 gives 2024-04-15. -/
theorem generated_due_date_15th_next_month (pgSlug : String) (d : YMonth)
    (guests : List GuestProfile) (bills : List MonthlyBill) :
    (∀ b ∈ (generate_bills pgSlug d guests bills).1, b ∉ bills →
      b.due_date.day = 15 ∧
      (d.month = 12 → b.due_date = ⟨d.year + 1, 1, 15⟩) ∧
      (d.month ≠ 12 → b.due_date = ⟨d.year, d.month + 1, 15⟩)) ∧
    computeDueDate ⟨2024, 12⟩ = ⟨2025, 1, 15⟩ ∧
    computeDueDate ⟨2024, 3⟩ = ⟨2024, 4, 15⟩ := by
  refine ⟨?_, by decide, by decide⟩
  intro b hb hnot
  rcases genLoop_mem_inv d _ bills b hb with h | ⟨g, hg, he⟩
  · exact absurd h hnot
  · subst he
    rw [newBillFor_due_date]
    unfold computeDueDate
    by_cases h12 : d.month = 12
    · rw [if_pos h12]
      exact ⟨rfl, fun _ => rfl, fun hne => absurd h12 hne⟩
    · rw [if_neg h12]
      exact ⟨rfl, fun he => absurd he h12, fun _ => rfl⟩

/-- C7 (witness): the bill generated for the December-2024 month key is due
2025-01-15. -/
theorem generated_due_date_15th_next_month_witness :
    (newBillFor wGuest ⟨2024, 12⟩).due_date = ⟨2025, 1, 15⟩ := by
  have h := generated_due_date_15th_next_month "sunrise" ⟨2024, 12⟩ [wGuest] []
  have hb : newBillFor wGuest ⟨2024, 12⟩ ∈
      (generate_bills "sunrise" ⟨2024, 12⟩ [wGuest] []).1 := by decide
  exact (h.1 _ hb (by decide)).2.1 rfl

end Hostel
